import Mathlib

/-!
Verification of the camera capture session state machine of this repository.

The source is the browser class CameraController (src/unnamed/part_000):
it owns the current pose index, the captured photo list, the countdown
interval, the media stream, and the analytics counters, and it emits
consolidated photosUpdated DOM events.  We embed it shallowly:

* every instance field of the class becomes a field of the structure
  CameraController below (audio fields and sessionStartTime are pure
  audio/telemetry sinks with no influence on any claimed behaviour and are
  not represented);
* the browser resources the class manipulates are made explicit so that
  leaks are observable: intervals holds every setInterval not yet
  clearInterval-ed together with the countdown closure variable of its
  callback, liveTracks holds every media track not yet stopped,
  pendingAdvances counts the scheduled 1.5s pose-advance setTimeout
  callbacks that have not fired yet;
* observable outputs are recorded in ghost fields: events is the list of
  dispatched photosUpdated CustomEvent details, captureErrors counts the
  showCaptureError calls;
* the DOM/audio-only helper calls (updatePoseGuide, sounds, displays...) are
  state-free except where they can throw: this.poses[this.currentPoseIndex]
  is undefined once currentPoseIndex exceeds 3, and the resulting TypeError
  aborts the rest of the enclosing method; those abort points are modelled
  explicitly.

External nondeterminism (camera frames, encoder output, getUserMedia
success, interval scheduling) is passed in as operation parameters.
-/

/-- One pose of the fixed catalog (this.poses entries). -/
structure Pose where
  name : String
  instruction : String
  description : String
  guideClass : String
  guideText : String
  deriving Repr, DecidableEq, Inhabited

/-- The fixed ordered pose catalog built in the constructor. -/
def poses : List Pose :=
  [ { name := "front"
    , instruction := "Stand facing the camera"
    , description := "Position yourself within the guide outline. Stand naturally with arms slightly away from your body. Make sure your full body is visible."
    , guideClass := "front"
    , guideText := "Face Forward" }
  , { name := "left"
    , instruction := "Turn to show your left side"
    , description := "Turn 90° to your left. Keep arms slightly away from your body. Stand straight and ensure your full profile is visible."
    , guideClass := "left"
    , guideText := "Left Side" }
  , { name := "right"
    , instruction := "Turn to show your right side"
    , description := "Turn 90° to your right. Keep arms slightly away from your body. Stand straight and ensure your full profile is visible."
    , guideClass := "right"
    , guideText := "Right Side" }
  , { name := "back"
    , instruction := "Turn to show your back"
    , description := "Turn around completely. Keep arms slightly away from your body. Look straight ahead and ensure your full back view is visible."
    , guideClass := "back"
    , guideText := "Face Away" } ]

/-- A photo record as built in capturePhoto: pose name, encoded blob size
(standing for the blob itself), and the timer setting used.  The dataUrl
and timestamp fields carry no behaviour relevant to any claim; blobSize is
what the validation reads. -/
structure PhotoData where
  pose : String
  blobSize : Nat
  timerUsed : Nat
  deriving Repr, DecidableEq

/-- The object returned by getTimerUsageStats (when photos exist). -/
structure TimerStats where
  timer5sCount : Nat
  timer10sCount : Nat
  averageTimer : Rat
  retakeCount : Nat
  cancellationCount : Nat
  deriving Repr, DecidableEq

/-- The detail payload of a dispatched photosUpdated CustomEvent. -/
structure EventDetail where
  photoCount : Nat
  hasAllPhotos : Bool
  currentPose : Nat
  timerUsage : Option TimerStats
  deriving Repr, DecidableEq

/-- The CameraController instance state plus explicit browser resources and
ghost observation logs (see the file header). -/
structure CameraController where
  currentPoseIndex : Nat
  capturedPhotos : List PhotoData
  /-- this.stream: the ids of the tracks of the held MediaStream, none when null. -/
  stream : Option (List Nat)
  /-- hardware tracks acquired and not yet stopped (track.stop()). -/
  liveTracks : List Nat
  nextTrackId : Nat
  isCapturing : Bool
  timerActive : Bool
  /-- this.timerInterval: the interval id stored in the field, none when null. -/
  timerInterval : Option Nat
  /-- every live browser interval (id, countdown closure variable).  An entry
  remains until clearInterval is called with its id. -/
  intervals : List (Nat × Int)
  nextIntervalId : Nat
  selectedTimer : Nat
  retakeCount : Nat
  timerCancellationCount : Nat
  /-- scheduled pose-advance setTimeout callbacks (capturePhoto, 1500ms) that
  have not fired yet. -/
  pendingAdvances : Nat
  /-- ghost: details of every dispatched photosUpdated event, in order. -/
  events : List EventDetail
  /-- ghost: number of showCaptureError calls. -/
  captureErrors : Nat
  deriving Repr, DecidableEq

namespace CameraController

/-- hasAllPhotos(): return this.capturedPhotos.length === 4. -/
def hasAllPhotos (s : CameraController) : Bool :=
  s.capturedPhotos.length == 4

/-- getTimerUsageStats(): null when no photos, else the summary object. -/
def getTimerUsageStats (s : CameraController) : Option TimerStats :=
  if s.capturedPhotos.length = 0 then none
  else some
    { timer5sCount := (s.capturedPhotos.filter (fun p => p.timerUsed == 5)).length
    , timer10sCount := (s.capturedPhotos.filter (fun p => p.timerUsed == 10)).length
    , averageTimer :=
        (s.capturedPhotos.map (fun p => (p.timerUsed : Rat))).sum
          / (s.capturedPhotos.length : Rat)
    , retakeCount := s.retakeCount
    , cancellationCount := s.timerCancellationCount }

/-- The detail object built in dispatchPhotoUpdateEvent. -/
def mkEventDetail (s : CameraController) : EventDetail :=
  { photoCount := s.capturedPhotos.length
  , hasAllPhotos := s.hasAllPhotos
  , currentPose := s.currentPoseIndex
  , timerUsage := s.getTimerUsageStats }

/-- dispatchPhotoUpdateEvent(): dispatch one photosUpdated event carrying the
current count, completion flag, pose index and timer-usage summary. -/
def dispatchPhotoUpdateEvent (s : CameraController) : CameraController :=
  { s with events := s.events ++ [mkEventDetail s] }

/-- updatePhotoStatus(): updates the status DOM and then dispatches one
photosUpdated event (its last line calls dispatchPhotoUpdateEvent). -/
def updatePhotoStatus (s : CameraController) : CameraController :=
  dispatchPhotoUpdateEvent s

/-- The catch branch of capturePhoto (showCaptureError) together with the
finally branch (isCapturing = false). -/
def captureFail (s : CameraController) : CameraController :=
  { s with captureErrors := s.captureErrors + 1, isCapturing := false }

/-- The pixel-content loop of capturePhoto over the flat RGBA byte array:
steps of 4, reads channels r g b at offsets 0 1 2, accepts as soon as one
pixel has r > 10 and g > 10 and b > 10 and (r < 245 or g < 245 or b < 245).
A trailing group shorter than 3 bytes is never accepted because the
JavaScript comparisons against undefined are false. -/
def hasContent : List Nat → Bool
  | r :: g :: b :: _ :: rest =>
      if 10 < r ∧ 10 < g ∧ 10 < b ∧ (r < 245 ∨ g < 245 ∨ b < 245) then true
      else hasContent rest
  | [r, g, b] =>
      if 10 < r ∧ 10 < g ∧ 10 < b ∧ (r < 245 ∨ g < 245 ∨ b < 245) then true
      else false
  | _ => false

/-- capturePhoto(): guarded by isCapturing; validates frame content, then the
encoded blob size (resolve only when blob.size > 1000); builds photoData with
this.poses[this.currentPoseIndex].name (a TypeError caught by the catch
branch when the index exceeds the catalog); pushes when
capturedPhotos.length <= currentPoseIndex, else assigns in place; dispatches
one photosUpdated event; finally schedules the 1.5s pose advance when
currentPoseIndex < 3 (the completion branch schedules only DOM changes).
The frame byte array and the encoder output size are inputs. -/
def capturePhoto (frame : List Nat) (blobSize : Nat) (s : CameraController) :
    CameraController :=
  if s.isCapturing then s
  else if hasContent frame = true then
    if 1000 < blobSize then
      if s.currentPoseIndex < 4 then
        let photo : PhotoData :=
          { pose := (poses.getD s.currentPoseIndex default).name
          , blobSize := blobSize
          , timerUsed := s.selectedTimer }
        let photos :=
          if s.capturedPhotos.length ≤ s.currentPoseIndex then
            s.capturedPhotos ++ [photo]
          else
            s.capturedPhotos.set s.currentPoseIndex photo
        let s1 := dispatchPhotoUpdateEvent
          { s with capturedPhotos := photos, isCapturing := false }
        if s1.currentPoseIndex < 3 then
          { s1 with pendingAdvances := s1.pendingAdvances + 1 }
        else s1
      else captureFail s
    else captureFail s
  else captureFail s

/-- startCaptureTimer(): no-op while capturing or counting down; sets
timerActive, then showTimerCountdown reads this.poses[this.currentPoseIndex]
(TypeError past the catalog, aborting before setInterval), then creates the
interval with the countdown closure initialised to selectedTimer and stores
its id in timerInterval. -/
def startCaptureTimer (s : CameraController) : CameraController :=
  if s.isCapturing || s.timerActive then s
  else if 4 ≤ s.currentPoseIndex then { s with timerActive := true }
  else
    { s with timerActive := true
           , timerInterval := some s.nextIntervalId
           , intervals := s.intervals ++ [(s.nextIntervalId, (s.selectedTimer : Int))]
           , nextIntervalId := s.nextIntervalId + 1 }

/-- cancelTimer(): no-op unless timerActive; increments
timerCancellationCount, clears the interval whose id is stored in
timerInterval (when not null), resets the flags. -/
def cancelTimer (s : CameraController) : CameraController :=
  if s.timerActive then
    let s1 := { s with timerCancellationCount := s.timerCancellationCount + 1 }
    let s2 :=
      match s1.timerInterval with
      | some id =>
          { s1 with intervals := s1.intervals.filter (fun p => p.1 != id)
                  , timerInterval := none }
      | none => s1
    { s2 with timerActive := false }
  else s

/-- closeCamera(): cancelTimer, then stop every track of the held stream and
null the reference, then updatePhotoStatus (which dispatches one event). -/
def closeCamera (s : CameraController) : CameraController :=
  let s1 := cancelTimer s
  let s2 :=
    match s1.stream with
    | some ts =>
        { s1 with liveTracks := s1.liveTracks.filter (fun t => !(ts.contains t))
                , stream := none }
    | none => s1
  updatePhotoStatus s2

/-- openCamera(): on getUserMedia failure only showCameraError runs (state
unchanged); on success the stream (with its fresh tracks) is stored and
currentPoseIndex is reset to 0 only when no photos exist yet.  Success and
the number of tracks of the granted stream are inputs. -/
def openCamera (ok : Bool) (numTracks : Nat) (s : CameraController) :
    CameraController :=
  if ok then
    let ids := List.range' s.nextTrackId numTracks
    let s1 := { s with stream := some ids
                     , liveTracks := s.liveTracks ++ ids
                     , nextTrackId := s.nextTrackId + numTracks }
    if s1.capturedPhotos.length = 0 then { s1 with currentPoseIndex := 0 }
    else s1
  else s

/-- One firing of the interval callback of setInterval in startCaptureTimer,
for the live interval with the given id: decrement the closure countdown;
when it reaches 0 or below, null this.timerInterval, reset timerActive and
call capturePhoto.  The interval entry itself is never removed here: the
source never calls clearInterval on this path. -/
def tick (id : Nat) (frame : List Nat) (blobSize : Nat) (s : CameraController) :
    CameraController :=
  match s.intervals.lookup id with
  | none => s
  | some c =>
      let ivs := s.intervals.map (fun p => if p.1 == id then (p.1, c - 1) else p)
      let s1 := { s with intervals := ivs }
      if c - 1 ≤ 0 then
        capturePhoto frame blobSize
          { s1 with timerInterval := none, timerActive := false }
      else s1

/-- retakeCurrentPhoto(): increments retakeCount unconditionally, splices out
capturedPhotos[currentPoseIndex] when that element exists, then updatePoseGuide
reads this.poses[this.currentPoseIndex] (TypeError past the catalog, aborting
before the dispatch), then dispatches one photosUpdated event. -/
def retakeCurrentPhoto (s : CameraController) : CameraController :=
  let s1 := { s with retakeCount := s.retakeCount + 1 }
  let s2 :=
    if s1.currentPoseIndex < s1.capturedPhotos.length then
      { s1 with capturedPhotos := s1.capturedPhotos.eraseIdx s1.currentPoseIndex }
    else s1
  if s2.currentPoseIndex < 4 then dispatchPhotoUpdateEvent s2 else s2

/-- One firing of the 1.5s pose-advance setTimeout callback scheduled by a
successful capture of a non-final pose: this.currentPoseIndex++ with no
guard (then updatePoseGuide, DOM only). -/
def fireAdvance (s : CameraController) : CameraController :=
  if s.pendingAdvances = 0 then s
  else { s with pendingAdvances := s.pendingAdvances - 1
              , currentPoseIndex := s.currentPoseIndex + 1 }

/-- The timer radio change handlers: selectedTimer := 10 or 5. -/
def setSelectedTimer (ten : Bool) (s : CameraController) : CameraController :=
  { s with selectedTimer := if ten then 10 else 5 }

/-- clearPhotos(): resets photos, index and both counters, then
updatePhotoStatus (one event) and dispatchPhotoUpdateEvent (a second event). -/
def clearPhotos (s : CameraController) : CameraController :=
  let s1 := { s with capturedPhotos := []
                   , currentPoseIndex := 0
                   , retakeCount := 0
                   , timerCancellationCount := 0 }
  dispatchPhotoUpdateEvent (updatePhotoStatus s1)

end CameraController

/-- The field values set by the constructor. -/
def baseState : CameraController :=
  { currentPoseIndex := 0
  , capturedPhotos := []
  , stream := none
  , liveTracks := []
  , nextTrackId := 0
  , isCapturing := false
  , timerActive := false
  , timerInterval := none
  , intervals := []
  , nextIntervalId := 0
  , selectedTimer := 5
  , retakeCount := 0
  , timerCancellationCount := 0
  , pendingAdvances := 0
  , events := []
  , captureErrors := 0 }

/-- The state after the constructor and init() (init calls updatePhotoStatus,
which dispatches the first photosUpdated event). -/
def initState : CameraController :=
  baseState.updatePhotoStatus

/-- The externally triggerable events of one session: user actions, platform
callbacks (interval ticks, the deferred pose advance) and getUserMedia
results.  Each carries its external nondeterminism as data. -/
inductive Op where
  | openCamera (ok : Bool) (numTracks : Nat)
  | closeCamera
  | setSelectedTimer (ten : Bool)
  | startCaptureTimer
  | cancelTimer
  | tick (id : Nat) (frame : List Nat) (blobSize : Nat)
  | retake
  | fireAdvance
  | clearPhotos
  deriving Repr, DecidableEq

/-- Interpretation of one event against the controller. -/
def step (op : Op) (s : CameraController) : CameraController :=
  match op with
  | .openCamera ok n => s.openCamera ok n
  | .closeCamera => s.closeCamera
  | .setSelectedTimer ten => s.setSelectedTimer ten
  | .startCaptureTimer => s.startCaptureTimer
  | .cancelTimer => s.cancelTimer
  | .tick id frame blob => s.tick id frame blob
  | .retake => s.retakeCurrentPhoto
  | .fireAdvance => s.fireAdvance
  | .clearPhotos => s.clearPhotos

/-- Run a whole session: the state after a list of events from page load. -/
def run (ops : List Op) : CameraController :=
  ops.foldl (fun s op => step op s) initState

/-- A frame whose first pixel is mid-grey: passes the content check. -/
def goodFrame : List Nat := [100, 100, 100, 255]

/-- A frame that is uniformly black: fails the content check. -/
def blankFrame : List Nat := [0, 0, 0, 255]

example : CameraController.hasContent goodFrame = true := by decide
example : CameraController.hasContent blankFrame = false := by decide
example : (run [.openCamera true 1]).stream = some [0] := by decide
example : (run [.openCamera true 1, .startCaptureTimer]).intervals = [(0, 5)] := by
  decide

/-- One RGBA pixel of a captured frame, as grouped by the validation loop. -/
structure Pixel where
  r : Nat
  g : Nat
  b : Nat
  a : Nat
  deriving Repr, DecidableEq

/-- The per-pixel acceptance condition of the content loop. -/
def contentPixel (p : Pixel) : Prop :=
  10 < p.r ∧ 10 < p.g ∧ 10 < p.b ∧ (p.r < 245 ∨ p.g < 245 ∨ p.b < 245)

instance (p : Pixel) : Decidable (contentPixel p) := by
  unfold contentPixel; infer_instance

/-- The flat RGBA byte array of a pixel list, as ImageData.data stores it. -/
def flattenPixels : List Pixel → List Nat
  | [] => []
  | p :: rest => p.r :: p.g :: p.b :: p.a :: flattenPixels rest

lemma hasContent_flatten (ps : List Pixel) :
    CameraController.hasContent (flattenPixels ps) = true ↔ ∃ p ∈ ps, contentPixel p := by
  induction ps with
  | nil => simp [flattenPixels, CameraController.hasContent]
  | cons p rest ih =>
      by_cases h : contentPixel p
      · unfold contentPixel at h
        simp [flattenPixels, CameraController.hasContent, h]
        exact Or.inl h
      · unfold contentPixel at h
        simp only [flattenPixels, CameraController.hasContent, if_neg h, ih]
        constructor
        · intro ⟨q, hq, hcq⟩
          exact ⟨q, List.mem_cons_of_mem _ hq, hcq⟩
        · intro ⟨q, hq, hcq⟩
          rcases List.mem_cons.mp hq with rfl | hq'
          · exact absurd hcq h
          · exact ⟨q, hq', hcq⟩

/-- C10: the blank-frame validation accepts a frame exactly when some pixel
has all of r, g, b above 10 and at least one channel below 245; hence any
frame in which some fixed channel is at most 10 in every pixel (for example
a uniformly pure-red frame) is rejected. -/
theorem claim_C10_hasContent_characterization : ∀ ps : List Pixel,
    (CameraController.hasContent (flattenPixels ps) = true ↔ ∃ p ∈ ps, contentPixel p)
    ∧ ((∀ p ∈ ps, p.r ≤ 10 ∨ p.g ≤ 10 ∨ p.b ≤ 10) →
        CameraController.hasContent (flattenPixels ps) = false) := by
  intro ps
  refine ⟨hasContent_flatten ps, ?_⟩
  intro hall
  cases hres : CameraController.hasContent (flattenPixels ps) with
  | false => rfl
  | true =>
      obtain ⟨p, hp, hcp⟩ := (hasContent_flatten ps).mp hres
      obtain ⟨h1, h2, h3, -⟩ := hcp
      rcases hall p hp with h | h | h <;> omega

/-- C10 witness: a mid-grey frame is accepted; a uniformly pure-red frame
(255, 0, 0) is rejected even though it is neither near-black nor near-white. -/
theorem claim_C10_witness :
    CameraController.hasContent (flattenPixels [⟨100, 100, 100, 255⟩]) = true
    ∧ CameraController.hasContent (flattenPixels [⟨255, 0, 0, 255⟩, ⟨255, 0, 0, 255⟩]) = false := by
  constructor
  · exact (claim_C10_hasContent_characterization [⟨100, 100, 100, 255⟩]).1.mpr
      ⟨⟨100, 100, 100, 255⟩, by simp, by decide⟩
  · exact (claim_C10_hasContent_characterization _).2 (by decide)

/-- The two submission payload shapes of the form handler. -/
inductive SubmissionPath where
  | basic
  | enhanced
  deriving Repr, DecidableEq

/-- The submit handler branch of initializeFormSubmission (form-handler.js,
lines 149-161): hasPhotos is window.cameraController &&
window.cameraController.hasAllPhotos(); enhanced when truthy, basic
otherwise.  The Option models the global being unset. -/
def decideSubmission (controller : Option CameraController) : SubmissionPath :=
  match controller with
  | some c => if c.hasAllPhotos then .enhanced else .basic
  | none => .basic

/-- C7: hasAllPhotos() is true exactly when photos.length is 4, in every
state, and (given the page-global controller exists) that predicate alone
decides the enhanced versus basic submission path. -/
theorem claim_C7_hasAllPhotos_gate : ∀ s : CameraController,
    (s.hasAllPhotos = true ↔ s.capturedPhotos.length = 4)
    ∧ (decideSubmission (some s) = SubmissionPath.enhanced ↔ s.hasAllPhotos = true) := by
  intro s
  constructor
  · simp [CameraController.hasAllPhotos]
  · by_cases h : s.hasAllPhotos = true <;> simp [decideSubmission, h]

/-- C7 witness: a session holding 4 photos is routed to the enhanced path. -/
theorem claim_C7_witness :
    ({ baseState with capturedPhotos :=
        [⟨"front", 2000, 5⟩, ⟨"left", 2000, 5⟩, ⟨"right", 2000, 5⟩, ⟨"back", 2000, 5⟩] } :
      CameraController).hasAllPhotos = true
    ∧ decideSubmission (some { baseState with capturedPhotos :=
        [⟨"front", 2000, 5⟩, ⟨"left", 2000, 5⟩, ⟨"right", 2000, 5⟩, ⟨"back", 2000, 5⟩] })
      = SubmissionPath.enhanced := by
  have h := claim_C7_hasAllPhotos_gate { baseState with capturedPhotos :=
    [⟨"front", 2000, 5⟩, ⟨"left", 2000, 5⟩, ⟨"right", 2000, 5⟩, ⟨"back", 2000, 5⟩] }
  exact ⟨h.1.mpr (by decide), h.2.mpr (h.1.mpr (by decide))⟩

/-- C3: when capture validation fails (blank or corrupt frame, or an encoded
blob not larger than 1000 bytes), the session is left unchanged except that
one capture error is surfaced: photos, pose index, selected timer, stream,
counters and dispatched events are untouched, the state stays out of
capturing, and the timer flag is untouched. -/
theorem claim_C3_validation_failure_no_change :
    ∀ (s : CameraController) (frame : List Nat) (blobSize : Nat),
    s.isCapturing = false →
    (CameraController.hasContent frame = false ∨ blobSize ≤ 1000) →
    let t := s.capturePhoto frame blobSize
    t.capturedPhotos = s.capturedPhotos
    ∧ t.currentPoseIndex = s.currentPoseIndex
    ∧ t.selectedTimer = s.selectedTimer
    ∧ t.isCapturing = false
    ∧ t.timerActive = s.timerActive
    ∧ t.stream = s.stream
    ∧ t.retakeCount = s.retakeCount
    ∧ t.timerCancellationCount = s.timerCancellationCount
    ∧ t.pendingAdvances = s.pendingAdvances
    ∧ t.events = s.events
    ∧ t.captureErrors = s.captureErrors + 1 := by
  intro s frame blobSize hcap hfail
  rcases hfail with hframe | hblob
  · simp [CameraController.capturePhoto, hcap, hframe, CameraController.captureFail]
  · have hnb : ¬ (1000 < blobSize) := by omega
    by_cases hframe : CameraController.hasContent frame = true
    · simp [CameraController.capturePhoto, hcap, hframe, hnb,
        CameraController.captureFail]
    · simp at hframe
      simp [CameraController.capturePhoto, hcap, hframe, CameraController.captureFail]

/-- C3 witness: a blank frame at the initial state surfaces one error and
changes nothing else. -/
theorem claim_C3_witness :
    (initState.capturePhoto blankFrame 2000).capturedPhotos = initState.capturedPhotos
    ∧ (initState.capturePhoto blankFrame 2000).currentPoseIndex = initState.currentPoseIndex
    ∧ (initState.capturePhoto blankFrame 2000).captureErrors = initState.captureErrors + 1 := by
  have h := claim_C3_validation_failure_no_change initState blankFrame 2000
    (by decide) (Or.inl (by decide))
  obtain ⟨h1, h2, -, -, -, -, -, -, -, -, h11⟩ := h
  exact ⟨h1, h2, h11⟩

/-- C4 (amended): for a content-valid frame at a pose inside the catalog, the
capture succeeds (no error surfaced) exactly when the encoded blob is
strictly larger than 1000 bytes; a blob of exactly 1000 bytes is rejected. -/
theorem claim_C4_blob_threshold :
    ∀ (s : CameraController) (frame : List Nat) (blobSize : Nat),
    s.isCapturing = false →
    CameraController.hasContent frame = true →
    s.currentPoseIndex < 4 →
    ((s.capturePhoto frame blobSize).captureErrors = s.captureErrors ↔ 1000 < blobSize) := by
  intro s frame blobSize hcap hframe hidx
  by_cases hb : 1000 < blobSize
  · simp only [CameraController.capturePhoto, hcap, hframe]
    simp [hb, hidx, CameraController.dispatchPhotoUpdateEvent]
    split <;> simp
  · simp only [CameraController.capturePhoto, hcap, hframe]
    simp [hb, CameraController.captureFail]

/-- C4 counterexample: the claim says a blob of at least 1000 bytes passes
the size check, but the source resolves only when blob.size > 1000, so an
encoded blob of exactly 1000 bytes is rejected: a capture with a valid frame
and a 1000-byte blob surfaces an error and stores nothing. -/
theorem claim_C4_counterexample :
    CameraController.hasContent goodFrame = true
    ∧ (initState.capturePhoto goodFrame 1000).captureErrors = initState.captureErrors + 1
    ∧ (initState.capturePhoto goodFrame 1000).capturedPhotos = [] := by
  decide

/-- C4 witness: a 1001-byte blob passes the size check (no error surfaced). -/
theorem claim_C4_witness :
    (initState.capturePhoto goodFrame 1001).captureErrors = initState.captureErrors := by
  exact (claim_C4_blob_threshold initState goodFrame 1001 (by decide) (by decide)
    (by decide)).mpr (by decide)

lemma lookup_filter_ne_key (id : Nat) (l : List (Nat × Int)) :
    (l.filter (fun p => p.1 != id)).lookup id = none := by
  induction l with
  | nil => simp
  | cons p l ih =>
      by_cases h : p.1 = id
      · simpa [List.filter_cons, h] using ih
      · have hne : (id == p.1) = false := beq_eq_false_iff_ne.mpr (Ne.symm h)
        simp [List.filter_cons, h, List.lookup, hne, ih]

lemma not_mem_filter_out (ts l : List Nat) (t : Nat) (ht : t ∈ ts) :
    t ∉ l.filter (fun x => !(ts.contains x)) := by
  intro hmem
  have hpred := (List.mem_filter.mp hmem).2
  simp at hpred
  exact hpred ht

lemma cancelTimer_stream (s : CameraController) :
    (CameraController.cancelTimer s).stream = s.stream := by
  by_cases h : s.timerActive
  · cases hti : s.timerInterval <;> simp [CameraController.cancelTimer, h, hti]
  · simp [CameraController.cancelTimer, h]

lemma cancelTimer_liveTracks (s : CameraController) :
    (CameraController.cancelTimer s).liveTracks = s.liveTracks := by
  by_cases h : s.timerActive
  · cases hti : s.timerInterval <;> simp [CameraController.cancelTimer, h, hti]
  · simp [CameraController.cancelTimer, h]

lemma cancelTimer_capturedPhotos (s : CameraController) :
    (CameraController.cancelTimer s).capturedPhotos = s.capturedPhotos := by
  by_cases h : s.timerActive
  · cases hti : s.timerInterval <;> simp [CameraController.cancelTimer, h, hti]
  · simp [CameraController.cancelTimer, h]

lemma cancelTimer_retakeCount (s : CameraController) :
    (CameraController.cancelTimer s).retakeCount = s.retakeCount := by
  by_cases h : s.timerActive
  · cases hti : s.timerInterval <;> simp [CameraController.cancelTimer, h, hti]
  · simp [CameraController.cancelTimer, h]

lemma cancelTimer_timerActive (s : CameraController) :
    (CameraController.cancelTimer s).timerActive = false := by
  by_cases h : s.timerActive
  · cases hti : s.timerInterval <;> simp [CameraController.cancelTimer, h, hti]
  · simp [CameraController.cancelTimer, h]

lemma cancelTimer_cancellationCount (s : CameraController) :
    (CameraController.cancelTimer s).timerCancellationCount
      = s.timerCancellationCount + (if s.timerActive then 1 else 0) := by
  by_cases h : s.timerActive
  · cases hti : s.timerInterval <;> simp [CameraController.cancelTimer, h, hti]
  · simp [CameraController.cancelTimer, h]

lemma cancelTimer_clears (s : CameraController) (id : Nat)
    (hact : s.timerActive = true) (hti : s.timerInterval = some id) :
    (CameraController.cancelTimer s).intervals.lookup id = none := by
  simp only [CameraController.cancelTimer, hact, if_true, hti]
  exact lookup_filter_ne_key id s.intervals

/-- The stream-release stage of closeCamera, applied to the state left by
cancelTimer. -/
def releaseStream (s : CameraController) : CameraController :=
  match s.stream with
  | some ts =>
      { s with liveTracks := s.liveTracks.filter (fun t => !(ts.contains t))
             , stream := none }
  | none => s

lemma closeCamera_as_stages (s : CameraController) :
    CameraController.closeCamera s
      = CameraController.updatePhotoStatus
          (releaseStream (CameraController.cancelTimer s)) := by
  rfl

lemma releaseStream_stream (s : CameraController) : (releaseStream s).stream = none := by
  cases hst : s.stream <;> simp [releaseStream, hst]

lemma cancelTimer_intervals_keep (s : CameraController) (h : s.timerActive = false) :
    (CameraController.cancelTimer s).intervals = s.intervals := by
  simp [CameraController.cancelTimer, h]

lemma releaseStream_capturedPhotos (s : CameraController) :
    (releaseStream s).capturedPhotos = s.capturedPhotos := by
  cases hst : s.stream <;> simp [releaseStream, hst]

lemma releaseStream_retakeCount (s : CameraController) :
    (releaseStream s).retakeCount = s.retakeCount := by
  cases hst : s.stream <;> simp [releaseStream, hst]

lemma releaseStream_timerActive (s : CameraController) :
    (releaseStream s).timerActive = s.timerActive := by
  cases hst : s.stream <;> simp [releaseStream, hst]

lemma releaseStream_cancellationCount (s : CameraController) :
    (releaseStream s).timerCancellationCount = s.timerCancellationCount := by
  cases hst : s.stream <;> simp [releaseStream, hst]

lemma releaseStream_intervals (s : CameraController) :
    (releaseStream s).intervals = s.intervals := by
  cases hst : s.stream <;> simp [releaseStream, hst]

lemma releaseStream_liveTracks_of_stream (s : CameraController) (ts : List Nat)
    (hst : s.stream = some ts) :
    (releaseStream s).liveTracks = s.liveTracks.filter (fun t => !(ts.contains t)) := by
  simp [releaseStream, hst]

/-- C6: closeCamera(), from any state, releases the stream reference, stops
every track of the held stream, cancels an active countdown (that
cancellation and only it increments timerCancellationCount, and the
cancelled interval is cleared), and leaves the captured photos and the
retake counter untouched. -/
theorem claim_C6_closeCamera : ∀ s : CameraController,
    let t := s.closeCamera
    t.stream = none
    ∧ t.capturedPhotos = s.capturedPhotos
    ∧ t.retakeCount = s.retakeCount
    ∧ t.timerActive = false
    ∧ t.timerCancellationCount
        = s.timerCancellationCount + (if s.timerActive then 1 else 0)
    ∧ (∀ ts, s.stream = some ts → ∀ tr ∈ ts, tr ∉ t.liveTracks)
    ∧ (∀ id, s.timerActive = true → s.timerInterval = some id →
        t.intervals.lookup id = none) := by
  intro s
  have hstage := closeCamera_as_stages s
  refine ⟨?_, ?_, ?_, ?_, ?_, ?_, ?_⟩
  · rw [hstage]
    simpa [CameraController.updatePhotoStatus, CameraController.dispatchPhotoUpdateEvent]
      using releaseStream_stream (CameraController.cancelTimer s)
  · rw [hstage]
    simp only [CameraController.updatePhotoStatus, CameraController.dispatchPhotoUpdateEvent]
    rw [releaseStream_capturedPhotos, cancelTimer_capturedPhotos]
  · rw [hstage]
    simp only [CameraController.updatePhotoStatus, CameraController.dispatchPhotoUpdateEvent]
    rw [releaseStream_retakeCount, cancelTimer_retakeCount]
  · rw [hstage]
    simp only [CameraController.updatePhotoStatus, CameraController.dispatchPhotoUpdateEvent]
    rw [releaseStream_timerActive, cancelTimer_timerActive]
  · rw [hstage]
    simp only [CameraController.updatePhotoStatus, CameraController.dispatchPhotoUpdateEvent]
    rw [releaseStream_cancellationCount, cancelTimer_cancellationCount]
  · intro ts hst tr htr
    rw [hstage]
    simp only [CameraController.updatePhotoStatus, CameraController.dispatchPhotoUpdateEvent]
    have hcs : (CameraController.cancelTimer s).stream = some ts := by
      rw [cancelTimer_stream]; exact hst
    rw [releaseStream_liveTracks_of_stream _ ts hcs]
    exact not_mem_filter_out ts _ tr htr
  · intro id hact hti
    rw [hstage]
    simp only [CameraController.updatePhotoStatus, CameraController.dispatchPhotoUpdateEvent]
    rw [releaseStream_intervals]
    exact cancelTimer_clears s id hact hti

/-- C6 witness: closing the camera while counting down with a two-track
stream releases both tracks, clears the interval, and counts one
cancellation while photos and the retake counter stay. -/
theorem claim_C6_witness :
    (CameraController.closeCamera
      { baseState with stream := some [0, 1], liveTracks := [0, 1]
                     , capturedPhotos := [⟨"front", 2000, 5⟩]
                     , retakeCount := 2
                     , timerActive := true, timerInterval := some 0
                     , intervals := [(0, 3)] }).stream = none
    ∧ (CameraController.closeCamera
      { baseState with stream := some [0, 1], liveTracks := [0, 1]
                     , capturedPhotos := [⟨"front", 2000, 5⟩]
                     , retakeCount := 2
                     , timerActive := true, timerInterval := some 0
                     , intervals := [(0, 3)] }).timerCancellationCount = 0 + 1
    ∧ (0 : Nat) ∉ (CameraController.closeCamera
      { baseState with stream := some [0, 1], liveTracks := [0, 1]
                     , capturedPhotos := [⟨"front", 2000, 5⟩]
                     , retakeCount := 2
                     , timerActive := true, timerInterval := some 0
                     , intervals := [(0, 3)] }).liveTracks
    ∧ (CameraController.closeCamera
      { baseState with stream := some [0, 1], liveTracks := [0, 1]
                     , capturedPhotos := [⟨"front", 2000, 5⟩]
                     , retakeCount := 2
                     , timerActive := true, timerInterval := some 0
                     , intervals := [(0, 3)] }).intervals.lookup 0 = none := by
  have h := claim_C6_closeCamera
    { baseState with stream := some [0, 1], liveTracks := [0, 1]
                   , capturedPhotos := [⟨"front", 2000, 5⟩]
                   , retakeCount := 2
                   , timerActive := true, timerInterval := some 0
                   , intervals := [(0, 3)] }
  obtain ⟨h1, -, -, -, h5, h6, h7⟩ := h
  exact ⟨h1, h5, h6 [0, 1] rfl 0 (by decide), h7 0 rfl rfl⟩

/-- C5 (amended): retake() increments retakeCount by exactly 1 on every
invocation, including when no photo exists at currentPoseIndex; when a photo
exists there it is spliced out and the pose index is unchanged; when none
exists the photo list is unchanged (but the counter still grows); the
timer/capture flags are untouched, so the session stays ready for capture at
the same pose. -/
theorem claim_C5_retake_behaviour : ∀ s : CameraController,
    let t := s.retakeCurrentPhoto
    t.retakeCount = s.retakeCount + 1
    ∧ t.currentPoseIndex = s.currentPoseIndex
    ∧ (s.currentPoseIndex < s.capturedPhotos.length →
        t.capturedPhotos = s.capturedPhotos.eraseIdx s.currentPoseIndex)
    ∧ (s.capturedPhotos.length ≤ s.currentPoseIndex →
        t.capturedPhotos = s.capturedPhotos)
    ∧ t.timerActive = s.timerActive
    ∧ t.isCapturing = s.isCapturing
    ∧ t.timerCancellationCount = s.timerCancellationCount := by
  intro s
  by_cases hlt : s.currentPoseIndex < s.capturedPhotos.length
  · have hnle : ¬ s.capturedPhotos.length ≤ s.currentPoseIndex := by omega
    by_cases h4 : s.currentPoseIndex < 4
    · simp [CameraController.retakeCurrentPhoto, hlt, h4,
        CameraController.dispatchPhotoUpdateEvent, hnle]
    · simp [CameraController.retakeCurrentPhoto, hlt, h4,
        CameraController.dispatchPhotoUpdateEvent, hnle]
  · have hle : s.capturedPhotos.length ≤ s.currentPoseIndex := by omega
    by_cases h4 : s.currentPoseIndex < 4
    · simp [CameraController.retakeCurrentPhoto, hlt, h4,
        CameraController.dispatchPhotoUpdateEvent, hle]
    · simp [CameraController.retakeCurrentPhoto, hlt, h4,
        CameraController.dispatchPhotoUpdateEvent, hle]

/-- C5 counterexample: the claim says that when no photo exists at
currentPoseIndex, retake() changes nothing and in particular retakeCount
does not increase; but at the initial state (no photos at all) retake()
still increments retakeCount from 0 to 1, because the source increments the
counter before checking that a photo exists. -/
theorem claim_C5_counterexample :
    initState.capturedPhotos = []
    ∧ initState.retakeCount = 0
    ∧ initState.retakeCurrentPhoto.retakeCount = 1 := by
  decide

/-- C5 witness: with one photo at pose 0, retake removes it, keeps the
index, and bumps the counter. -/
theorem claim_C5_witness :
    ({ baseState with capturedPhotos := [⟨"front", 2000, 5⟩] } :
        CameraController).retakeCurrentPhoto.retakeCount = 1
    ∧ ({ baseState with capturedPhotos := [⟨"front", 2000, 5⟩] } :
        CameraController).retakeCurrentPhoto.currentPoseIndex = 0
    ∧ ({ baseState with capturedPhotos := [⟨"front", 2000, 5⟩] } :
        CameraController).retakeCurrentPhoto.capturedPhotos = [] := by
  have h := claim_C5_retake_behaviour
    { baseState with capturedPhotos := [⟨"front", 2000, 5⟩] }
  obtain ⟨h1, h2, h3, -⟩ := h
  exact ⟨h1, h2, h3 (by decide)⟩

lemma getElem?_concat_self (l : List PhotoData) (a : PhotoData) :
    (l ++ [a])[l.length]? = some a := by
  induction l with
  | nil => rfl
  | cons x l ih => simp [ih]

lemma getElem?_set_self (l : List PhotoData) (i : Nat) (a : PhotoData)
    (h : i < l.length) : (l.set i a)[i]? = some a := by
  induction l generalizing i with
  | nil => simp at h
  | cons x l ih =>
      cases i with
      | zero => simp
      | succ n => simpa using ih n (by simpa using h)

/-- C2 (amended): for every successful capture (valid frame, blob larger
than 1000 bytes, pose index inside the catalog) started from a state where
currentPoseIndex does not exceed photos.length — which holds in every
session in which no retake races the deferred 1.5s pose advance —
photos.length grows by exactly 1 when the slot at the current pose index
was empty and is unchanged when it was a replace, and the photo stored at
the index that was currentPoseIndex at the start of the capture is the new
photo.  (The counterexample shows the claim fails without that
precondition.) -/
theorem claim_C2_capture_storage :
    ∀ (s : CameraController) (frame : List Nat) (blobSize : Nat),
    s.isCapturing = false →
    CameraController.hasContent frame = true →
    1000 < blobSize →
    s.currentPoseIndex < 4 →
    s.currentPoseIndex ≤ s.capturedPhotos.length →
    let t := s.capturePhoto frame blobSize
    (t.capturedPhotos.length
      = if s.capturedPhotos.length ≤ s.currentPoseIndex
        then s.capturedPhotos.length + 1 else s.capturedPhotos.length)
    ∧ t.capturedPhotos[s.currentPoseIndex]?
        = some ⟨(poses.getD s.currentPoseIndex default).name, blobSize, s.selectedTimer⟩
    ∧ t.currentPoseIndex = s.currentPoseIndex
    ∧ t.captureErrors = s.captureErrors := by
  intro s frame blobSize hcap hframe hblob hidx hle
  by_cases hpl : s.capturedPhotos.length ≤ s.currentPoseIndex
  · have heq : s.capturedPhotos.length = s.currentPoseIndex := le_antisymm hpl hle
    by_cases h3 : s.currentPoseIndex < 3 <;>
      · simp [CameraController.capturePhoto, hcap, hframe, hblob, hidx, hpl, h3,
          CameraController.dispatchPhotoUpdateEvent]
        rw [← heq]
        exact getElem?_concat_self s.capturedPhotos _
  · have hlt : s.currentPoseIndex < s.capturedPhotos.length := by omega
    by_cases h3 : s.currentPoseIndex < 3 <;>
      · simp [CameraController.capturePhoto, hcap, hframe, hblob, hidx, hpl, h3,
          CameraController.dispatchPhotoUpdateEvent]
        exact getElem?_set_self s.capturedPhotos s.currentPoseIndex _ hlt

/-- C2 witness: the first capture of a fresh session stores the front photo
at index 0 and grows the list from 0 to 1. -/
theorem claim_C2_witness :
    (baseState.capturePhoto goodFrame 2000).capturedPhotos.length = 1
    ∧ (baseState.capturePhoto goodFrame 2000).capturedPhotos[0]?
        = some ⟨"front", 2000, 5⟩
    ∧ (baseState.capturePhoto goodFrame 2000).currentPoseIndex = 0 := by
  have h := claim_C2_capture_storage baseState goodFrame 2000 (by decide) (by decide)
    (by decide) (by decide) (by decide)
  obtain ⟨h1, h2, h3, -⟩ := h
  exact ⟨h1, h2, h3⟩

/-- The session of the C2 counterexample, up to just before the last
capture: open the camera, run a 5s countdown to zero (first capture of the
front pose succeeds and schedules the deferred pose advance; the interval
is left running by the source), retake immediately (removing the photo),
let the still-live interval fire on a covered lens (failed capture), then
let the deferred pose advance fire: now currentPoseIndex is 1 while no
photo exists. -/
def c2head : List Op :=
  [ .openCamera true 1, .startCaptureTimer
  , .tick 0 goodFrame 2000, .tick 0 goodFrame 2000, .tick 0 goodFrame 2000
  , .tick 0 goodFrame 2000, .tick 0 goodFrame 2000
  , .retake
  , .tick 0 blankFrame 2000
  , .fireAdvance ]

/-- The C2 counterexample session: the prefix followed by one more firing of
the leaked interval with a good frame, i.e. one successful capture. -/
def c2script : List Op := c2head ++ [.tick 0 goodFrame 2000]

/-- C2 counterexample: in the session c2script the final capture succeeds
(no error is surfaced, the photo count grows by one from an empty slot) from
currentPoseIndex 1, yet photos[1] does not hold the new photo — the photo
was appended at index 0: the claim fails as stated for this reachable
capture. -/
theorem claim_C2_counterexample :
    (run c2head).currentPoseIndex = 1
    ∧ (run c2head).capturedPhotos.length = 0
    ∧ (run c2script).captureErrors = (run c2head).captureErrors
    ∧ (run c2script).capturedPhotos.length = 1
    ∧ (run c2script).capturedPhotos[1]? = none
    ∧ (run c2script).capturedPhotos[0]? = some ⟨"left", 2000, 5⟩ := by
  decide

/-- C9 (amended): a successful capture emits exactly one consolidated
photosUpdated notification, and so does retake() (at a pose inside the
catalog); but clearPhotos() emits two notifications (one through its
updatePhotoStatus call and one direct dispatch), and the deferred pose
advance emits none.  Every emitted notification carries the photo count,
completion flag, pose index and timer-usage summary (mkEventDetail). -/
theorem claim_C9_event_emission :
    ∀ (s : CameraController) (frame : List Nat) (blobSize : Nat),
    (s.isCapturing = false → CameraController.hasContent frame = true →
      1000 < blobSize → s.currentPoseIndex < 4 →
      (s.capturePhoto frame blobSize).events.length = s.events.length + 1)
    ∧ (s.currentPoseIndex < 4 →
      s.retakeCurrentPhoto.events.length = s.events.length + 1)
    ∧ s.clearPhotos.events.length = s.events.length + 2
    ∧ s.fireAdvance.events.length = s.events.length := by
  intro s frame blobSize
  refine ⟨?_, ?_, ?_, ?_⟩
  · intro hcap hframe hblob hidx
    by_cases hpl : s.capturedPhotos.length ≤ s.currentPoseIndex <;>
      by_cases h3 : s.currentPoseIndex < 3 <;>
        simp [CameraController.capturePhoto, hcap, hframe, hblob, hidx, hpl, h3,
          CameraController.dispatchPhotoUpdateEvent]
  · intro h4
    by_cases hlt : s.currentPoseIndex < s.capturedPhotos.length <;>
      simp [CameraController.retakeCurrentPhoto, hlt, h4,
        CameraController.dispatchPhotoUpdateEvent]
  · simp [CameraController.clearPhotos, CameraController.updatePhotoStatus,
      CameraController.dispatchPhotoUpdateEvent]
  · by_cases hp : s.pendingAdvances = 0 <;> simp [CameraController.fireAdvance, hp]

/-- C9 counterexample: the claim says every state-affecting operation emits
exactly one photosUpdated notification; but clearPhotos() — a photo-removing
status-changing operation — emits two: from the initial state (1 event so
far, from init) it leaves 3 dispatched events, not 2. -/
theorem claim_C9_counterexample :
    initState.events.length = 1
    ∧ initState.clearPhotos.events.length = 3 := by
  decide

/-- C9 witness: from the initial state, a successful capture emits one
notification, a retake emits one, clearPhotos emits two, and a (vacuous)
deferred advance emits none. -/
theorem claim_C9_witness :
    (baseState.capturePhoto goodFrame 2000).events.length = baseState.events.length + 1
    ∧ baseState.retakeCurrentPhoto.events.length = baseState.events.length + 1
    ∧ baseState.clearPhotos.events.length = baseState.events.length + 2
    ∧ baseState.fireAdvance.events.length = baseState.events.length := by
  obtain ⟨h1, h2, h3, h4⟩ := claim_C9_event_emission baseState goodFrame 2000
  exact ⟨h1 (by decide) (by decide) (by decide) (by decide), h2 (by decide), h3, h4⟩

/-- The C1 failing session: open the camera, start a 5-second countdown,
and let its interval fire five times, reaching zero and triggering the
capture. -/
def c1head : List Op :=
  [ .openCamera true 1, .startCaptureTimer
  , .tick 0 goodFrame 2000, .tick 0 goodFrame 2000, .tick 0 goodFrame 2000
  , .tick 0 goodFrame 2000, .tick 0 goodFrame 2000 ]

/-- C1: after the countdown of c1head reaches zero (one photo captured,
timerActive reset, this.timerInterval nulled), the interval created by
setInterval is still live — the zero branch never calls clearInterval — so
a dangling timer remains after completion; and because the guard flags are
clear, startCountdown immediately succeeds again and a second live interval
is created, violating the single-active-timer rule. -/
theorem claim_C1_dangling_interval :
    (run c1head).capturedPhotos.length = 1
    ∧ (run c1head).timerActive = false
    ∧ (run c1head).timerInterval = none
    ∧ (run c1head).intervals = [(0, 0)]
    ∧ (run (c1head ++ [Op.cancelTimer])).intervals = [(0, 0)]
    ∧ (run (c1head ++ [Op.startCaptureTimer])).intervals.length = 2 := by
  decide

/-- The C8 failing session: one countdown runs to zero and the leaked
interval keeps firing every second; each successful capture of a non-final
pose schedules an unguarded deferred increment of currentPoseIndex, and the
captures outpace the catalog. The interleaving matches real time: captures
at t, t+1, t+2, t+3, t+4 and deferred advances at t+1.5, t+2.5, t+3.5,
t+4.5. -/
def c8script : List Op :=
  [ .openCamera true 1, .startCaptureTimer
  , .tick 0 goodFrame 2000, .tick 0 goodFrame 2000, .tick 0 goodFrame 2000
  , .tick 0 goodFrame 2000
  , .tick 0 goodFrame 2000
  , .tick 0 goodFrame 2000
  , .fireAdvance
  , .tick 0 goodFrame 2000
  , .fireAdvance
  , .tick 0 goodFrame 2000
  , .fireAdvance
  , .tick 0 goodFrame 2000
  , .fireAdvance ]

/-- C8: at the end of the c8script session currentPoseIndex is 4, past the
catalog bound 3 that the claim says is never exceeded (poses.length = 4, so
index 4 is out of range). -/
theorem claim_C8_pose_index_overflow :
    (run c8script).currentPoseIndex = 4
    ∧ (run c8script).capturedPhotos.length = 4
    ∧ poses.length = 4 := by
  decide
